import Mathlib

/-!
Greeting handler: an embedding of the two `httpTrigger` handlers.

The repository registers the same HTTP function twice:

* `src/functions/httpTrigger.js` (loaded by `src/index.js`), embedded as
  `SrcFunctions.handler`;
* `httpTrigger/index.js`, embedded as `HttpTriggerIndex.handler`.

Both read `request.query.get('name')`, build a greeting, and return a
`{status, headers, jsonBody}` object.  The ambient inputs of the JavaScript code
(`process.env`, `process.version`, the wall clock read by `new Date()`) are made
explicit arguments, and `context.log` is modelled by threading the list of
emitted log lines through the invocation context.
-/

namespace GreetingHandler

/-! ## Data model -/

/-- The `request.query` object: an ordered list of key/value pairs.  `get`
returns the first value stored under a key, as `URLSearchParams.get` does (for
the `Map` objects used by the tests keys are unique, so this is `Map.get`). -/
structure Query where
  entries : List (String × String)
deriving DecidableEq, Repr

/-- The lookup `request.query.get(key)`; `none` stands for `null`/`undefined`. -/
def Query.get (q : Query) (key : String) : Option String :=
  q.entries.lookup key

/-- The request object handed to a handler. -/
structure HttpRequest where
  method : String
  url : String
  query : Query
  headers : List (String × String)
deriving DecidableEq, Repr

/-- The invocation context; `logged` is what the `log` sink has received. -/
structure InvocationContext where
  logged : List String
deriving DecidableEq, Repr

/-- The call `context.log(line)`. -/
def InvocationContext.log (ctx : InvocationContext) (line : String) : InvocationContext :=
  { ctx with logged := ctx.logged ++ [line] }

/-- The Node.js `process` object, as far as the handlers read it. -/
structure Process where
  env : List (String × String)
  version : String
deriving DecidableEq, Repr

/-- The property read `process.env[key]`; `none` stands for `undefined`. -/
def Process.getEnv (p : Process) (key : String) : Option String :=
  p.env.lookup key

/-- The JavaScript values that occur in a response body. -/
inductive JsValue where
  | null
  | bool (b : Bool)
  | number (n : Int)
  | string (s : String)
deriving DecidableEq, Repr

/-- The test `typeof v === 'string'`. -/
def JsValue.isString : JsValue → Bool
  | .string _ => true
  | _ => false

/-- The object a handler returns: `{ status, headers, jsonBody }`, the two
object literals kept as ordered lists of properties. -/
structure HttpResponse where
  status : Nat
  headers : List (String × String)
  jsonBody : List (String × JsValue)
deriving DecidableEq, Repr

/-- Property read `response.jsonBody[key]`. -/
def HttpResponse.field (r : HttpResponse) (key : String) : Option JsValue :=
  r.jsonBody.lookup key

/-- Property read `response.headers[key]`. -/
def HttpResponse.header (r : HttpResponse) (key : String) : Option String :=
  r.headers.lookup key

/-- The own property names of `response.jsonBody`, in insertion order. -/
def HttpResponse.bodyKeys (r : HttpResponse) : List String :=
  r.jsonBody.map Prod.fst

/-! ## JavaScript primitives used by the handlers -/

/-- JavaScript truthiness of a value that is a string, `null` or `undefined`:
only a non-empty string is truthy. -/
def truthy : Option String → Bool
  | some s => decide (s ≠ "")
  | none => false

/-- The expression `a || fallback` where `a` is a string or `undefined`. -/
def orElse (a : Option String) (fallback : String) : String :=
  match a with
  | some s => if s ≠ "" then s else fallback
  | none => fallback

/-- The test `s.includes(sub)` (what Jest's `toContain` checks on strings):
`sub` occurs in `s` as a contiguous run of characters. -/
def includes (s sub : String) : Prop :=
  sub.data <:+: s.data

instance (s sub : String) : Decidable (includes s sub) :=
  inferInstanceAs (Decidable (sub.data <:+: s.data))

/-! ## The `Date` object

`new Date().toISOString()` is a built-in of the JavaScript runtime.  It is
embedded here after ECMA-262 (section "Date Objects"): the abstract operations
keep their ECMA-262 names (`Day`, `DayFromYear`, `YearFromTime`, `MonthFromTime`,
`DateFromTime`, `MakeTime`, `MakeDay`, `MakeDate`, `TimeClip`).  Time values are
integers (milliseconds since 1970-01-01T00:00:00Z); `/` and `%` on `Int` round
towards minus infinity for a positive divisor, which is the `floor` and `modulo`
of ECMA-262. -/

/-- A time value: milliseconds since 1970-01-01T00:00:00Z, within the range of
8.64e15 milliseconds either side of the epoch that a valid `Date` holds.  The
value of `new Date()` is always of this kind. -/
structure TimeValue where
  ms : Int
  inRange : -8640000000000000 ≤ ms ∧ ms ≤ 8640000000000000

def msPerDay : Int := 86400000

def msPerHour : Int := 3600000

def msPerMinute : Int := 60000

def msPerSecond : Int := 1000

/-- Day number of a time value. -/
def Day (t : Int) : Int := t / msPerDay

/-- Number of days of year `y` in the proleptic Gregorian calendar. -/
def DaysInYear (y : Int) : Int :=
  if y % 4 ≠ 0 then 365 else if y % 100 ≠ 0 then 366 else if y % 400 ≠ 0 then 365 else 366

/-- Leap flag of a year: 1 in a leap year, else 0. -/
def leapFlag (y : Int) : Int := if DaysInYear y = 366 then 1 else 0

/-- Day number of the first day of year `y`. -/
def DayFromYear (y : Int) : Int :=
  365 * (y - 1970) + (y - 1969) / 4 - (y - 1901) / 100 + (y - 1601) / 400

/-- The year that contains day number `d`.  ECMA-262 specifies it as the largest
`y` with `DayFromYear y ≤ d`; it is computed by an estimate from the mean year
length (146097 days per 400 years) corrected by at most one year
(`YearFromDay_spec` proves the specification). -/
def YearFromDay (d : Int) : Int :=
  let y0 := 1970 + (400 * d) / 146097
  if d < DayFromYear y0 then y0 - 1
  else if DayFromYear (y0 + 1) ≤ d then y0 + 1
  else y0

def YearFromTime (t : Int) : Int := YearFromDay (Day t)

/-- Leap flag of the year of a time value: 1 in a leap year, else 0. -/
def InLeapYear (t : Int) : Int := leapFlag (YearFromTime t)

def DayWithinYear (t : Int) : Int := Day t - DayFromYear (YearFromTime t)

/-- Month number (0 is January) from the day within the year and the leap flag:
the table of ECMA-262 `MonthFromTime`. -/
def monthFromDayWithinYear (d leap : Int) : Int :=
  if d < 31 then 0
  else if d < 59 + leap then 1
  else if d < 90 + leap then 2
  else if d < 120 + leap then 3
  else if d < 151 + leap then 4
  else if d < 181 + leap then 5
  else if d < 212 + leap then 6
  else if d < 243 + leap then 7
  else if d < 273 + leap then 8
  else if d < 304 + leap then 9
  else if d < 334 + leap then 10
  else 11

/-- Days from the start of a year to the start of its month `m` (0 is January). -/
def daysBeforeMonth (leap m : Int) : Int :=
  if m = 0 then 0
  else if m = 1 then 31
  else if m = 2 then 59 + leap
  else if m = 3 then 90 + leap
  else if m = 4 then 120 + leap
  else if m = 5 then 151 + leap
  else if m = 6 then 181 + leap
  else if m = 7 then 212 + leap
  else if m = 8 then 243 + leap
  else if m = 9 then 273 + leap
  else if m = 10 then 304 + leap
  else 334 + leap

def MonthFromTime (t : Int) : Int :=
  monthFromDayWithinYear (DayWithinYear t) (InLeapYear t)

/-- Day of the month (1-based): the table of ECMA-262 `DateFromTime`, written
as the day within the year minus the days before the month, plus one. -/
def DateFromTime (t : Int) : Int :=
  DayWithinYear t - daysBeforeMonth (InLeapYear t) (MonthFromTime t) + 1

def HourFromTime (t : Int) : Int := (t / msPerHour) % 24

def MinFromTime (t : Int) : Int := (t / msPerMinute) % 60

def SecFromTime (t : Int) : Int := (t / msPerSecond) % 60

def msFromTime (t : Int) : Int := t % msPerSecond

def MakeTime (hour min sec ms : Int) : Int :=
  hour * msPerHour + min * msPerMinute + sec * msPerSecond + ms

/-- Day number of a calendar date; `month` is 0-based and may overflow into
the following years. -/
def MakeDay (year month date : Int) : Int :=
  DayFromYear (year + month / 12)
    + daysBeforeMonth (leapFlag (year + month / 12)) (month % 12) + date - 1

def MakeDate (day time : Int) : Int := day * msPerDay + time

/-- The range check of `TimeClip`; `none` stands for `NaN`. -/
def TimeClip (t : Int) : Option Int :=
  if -8640000000000000 ≤ t ∧ t ≤ 8640000000000000 then some t else none

/-- Number of days of a month (1 is January) of a year. -/
def DaysInMonth (year month : Int) : Int :=
  if month = 2 then 28 + leapFlag year
  else if month = 4 ∨ month = 6 ∨ month = 9 ∨ month = 11 then 30
  else 31

/-- Decimal rendering of `n` on exactly `k` digits, with leading zeros. -/
def padDigits : Nat → Nat → List Char
  | 0, _ => []
  | k + 1, n => padDigits k (n / 10) ++ [Nat.digitChar (n % 10)]

/-- The year of the Date Time String Format: four digits for the years 0 to
9999, otherwise a sign and six digits. -/
def yearChars (y : Int) : List Char :=
  if 0 ≤ y ∧ y ≤ 9999 then padDigits 4 y.toNat
  else if y < 0 then '-' :: padDigits 6 (-y).toNat
  else '+' :: padDigits 6 y.toNat

/-- The part of the rendering after the year: `-MM-DDTHH:mm:ss.sssZ`. -/
def fieldChars (month date hour min sec ms : Nat) : List Char :=
  '-' :: (padDigits 2 month ++ ('-' :: (padDigits 2 date ++ ('T' :: (padDigits 2 hour
    ++ (':' :: (padDigits 2 min ++ (':' :: (padDigits 2 sec
    ++ ('.' :: (padDigits 3 ms ++ ['Z'])))))))))))

/-- The characters of `Date.prototype.toISOString` for time value `t`. -/
def isoChars (t : Int) : List Char :=
  yearChars (YearFromTime t)
    ++ fieldChars (MonthFromTime t + 1).toNat (DateFromTime t).toNat (HourFromTime t).toNat
        (MinFromTime t).toNat (SecFromTime t).toNat (msFromTime t).toNat

/-- The call `date.toISOString()` on a valid date. -/
def toISOString (t : TimeValue) : String := String.mk (isoChars t.ms)

/-- Value of a decimal digit; `none` for any other character. -/
def digitValue (c : Char) : Option Nat :=
  if c.isDigit then some (c.toNat - '0'.toNat) else none

def parseDigitsFrom (acc : Nat) : List Char → Option Nat
  | [] => some acc
  | c :: cs =>
    match digitValue c with
    | some v => parseDigitsFrom (acc * 10 + v) cs
    | none => none

/-- Reads a run of decimal digits; `none` if a character is not a digit. -/
def parseDigits (cs : List Char) : Option Nat := parseDigitsFrom 0 cs

/-- Reads the year of a date-time string: four digits, or a sign and six digits
(the year `-000000` is not valid).  Returns the year and the remaining input. -/
def parseYear (cs : List Char) : Option (Int × List Char) :=
  match cs with
  | [] => none
  | c :: rest =>
    if c = '+' then
      if (rest.take 6).length = 6 then
        (parseDigits (rest.take 6)).bind fun (y : Nat) => some ((y : Int), rest.drop 6)
      else none
    else if c = '-' then
      if (rest.take 6).length = 6 then
        (parseDigits (rest.take 6)).bind fun (y : Nat) =>
          if y = 0 then none else some (-(y : Int), rest.drop 6)
      else none
    else
      if (cs.take 4).length = 4 then
        (parseDigits (cs.take 4)).bind fun (y : Nat) => some ((y : Int), cs.drop 4)
      else none

/-- Reads `-MM-DDTHH:mm:ss.sssZ` after the year and computes the time value.
Every element must be in range: month 01 to 12, day 01 to the length of that
month, hour 00 to 24 (24 only as `24:00:00.000`), minute and second 00 to 59. -/
def parseFields (year : Int) : List Char → Option Int
  | [c0, m1, m2, c1, d1, d2, c2, h1, h2, c3, n1, n2, c4, s1, s2, c5, f1, f2, f3, c6] =>
    if c0 = '-' ∧ c1 = '-' ∧ c2 = 'T' ∧ c3 = ':' ∧ c4 = ':' ∧ c5 = '.' ∧ c6 = 'Z' then
      (parseDigits [m1, m2]).bind fun (month : Nat) =>
      (parseDigits [d1, d2]).bind fun (date : Nat) =>
      (parseDigits [h1, h2]).bind fun (hour : Nat) =>
      (parseDigits [n1, n2]).bind fun (min : Nat) =>
      (parseDigits [s1, s2]).bind fun (sec : Nat) =>
      (parseDigits [f1, f2, f3]).bind fun (ms : Nat) =>
        if 1 ≤ month ∧ month ≤ 12 ∧ 1 ≤ date ∧ (date : Int) ≤ DaysInMonth year month
            ∧ hour ≤ 24 ∧ min ≤ 59 ∧ sec ≤ 59
            ∧ (hour = 24 → min = 0 ∧ sec = 0 ∧ ms = 0) then
          TimeClip (MakeDate (MakeDay year ((month : Int) - 1) date) (MakeTime hour min sec ms))
        else none
    else none
  | _ => none

def parseChars (cs : List Char) : Option Int :=
  (parseYear cs).bind fun p => parseFields p.1 p.2

/-- The function `Date.parse` on complete UTC date-time strings
(`YYYY-MM-DDTHH:mm:ss.sssZ`, or the same with a signed six-digit year): the time
value the string denotes, or `none` (for `NaN`) when the string is not a valid
date-time of that form. -/
def dateParse (s : String) : Option Int := parseChars s.data

/-! ## The two handlers -/

namespace SrcFunctions

/-- The handler registered by `src/functions/httpTrigger.js`.  Returns the
response together with the context after the call to `context.log`. -/
def handler (request : HttpRequest) (context : InvocationContext) (process : Process)
    (now : TimeValue) : HttpResponse × InvocationContext :=
  let context := context.log "HTTP trigger function processed a request."
  let name := request.query.get "name"
  let responseMessage :=
    match name with
    | some n =>
      if truthy (some n) then
        "Hello, " ++ n ++ "! This Azure Function was deployed using Jenkins CI/CD Pipeline."
      else "Hello, World! This Azure Function was deployed using Jenkins CI/CD Pipeline."
    | none => "Hello, World! This Azure Function was deployed using Jenkins CI/CD Pipeline."
  ({ status := 200
     headers := [("Content-Type", "application/json")]
     jsonBody :=
       [ ("message", .string responseMessage),
         ("timestamp", .string (toISOString now)),
         ("environment", .string (orElse (process.getEnv "AZURE_FUNCTIONS_ENVIRONMENT") "local")),
         ("nodeVersion", .string process.version) ] },
   context)

end SrcFunctions

namespace HttpTriggerIndex

/-- The handler registered by `httpTrigger/index.js`.  Returns the response
together with the context after the two calls to `context.log`. -/
def handler (request : HttpRequest) (context : InvocationContext) (process : Process)
    (now : TimeValue) : HttpResponse × InvocationContext :=
  let context := context.log "HTTP trigger function processed a request."
  let name := request.query.get "name"
  let responseMessage :=
    match name with
    | some n =>
      if truthy (some n) then
        "Hello, " ++ n ++ "! This Azure Function was deployed using Jenkins CI/CD Pipeline."
      else "Hello, World! This Azure Function was deployed using Jenkins CI/CD Pipeline."
    | none => "Hello, World! This Azure Function was deployed using Jenkins CI/CD Pipeline."
  let context := context.log ("Generated response: " ++ responseMessage)
  ({ status := 200
     headers := [("Content-Type", "application/json")]
     jsonBody :=
       [ ("message", .string responseMessage),
         ("timestamp", .string (toISOString now)),
         ("environment",
           .string (orElse (process.getEnv "AZURE_FUNCTIONS_ENVIRONMENT") "production")),
         ("nodeVersion", .string process.version),
         ("functionRuntime", .string "Azure Functions v4"),
         ("programmingModel", .string "Node.js v4"),
         ("deploymentMethod", .string "Jenkins CI/CD Pipeline") ] },
   context)

end HttpTriggerIndex

/-! ## Concrete inputs used in the examples below -/

/-- The request `GET /api/hello` of the first test case. -/
def getRequest : HttpRequest :=
  { method := "GET", url := "http://localhost:7071/api/hello", query := ⟨[]⟩, headers := [] }

/-- The request `POST /api/hello` of the fourth test case. -/
def postRequest : HttpRequest :=
  { method := "POST", url := "http://localhost:7071/api/hello", query := ⟨[]⟩, headers := [] }

/-- The request `GET /api/hello?name=Jenkins` of the second test case. -/
def jenkinsRequest : HttpRequest :=
  { method := "GET", url := "http://localhost:7071/api/hello?name=Jenkins",
    query := ⟨[("name", "Jenkins")]⟩, headers := [] }

/-- The mock context of the tests, nothing logged yet. -/
def mockContext : InvocationContext := { logged := [] }

/-- A process in which `AZURE_FUNCTIONS_ENVIRONMENT` is not set. -/
def bareProcess : Process := { env := [], version := "v20.11.0" }

/-- A process in which `AZURE_FUNCTIONS_ENVIRONMENT` is `Development`. -/
def devProcess : Process :=
  { env := [("AZURE_FUNCTIONS_ENVIRONMENT", "Development")], version := "v20.11.0" }

/-- A process in which `AZURE_FUNCTIONS_ENVIRONMENT` is set to the empty string. -/
def emptyEnvProcess : Process :=
  { env := [("AZURE_FUNCTIONS_ENVIRONMENT", "")], version := "v20.11.0" }

/-- The instant 2025-11-06T00:00:00.123Z. -/
def sampleTime : TimeValue := ⟨1762387200123, by decide⟩

/-! ## Decimal digits: rendering and reading back -/

theorem digitValue_digitChar (k : Nat) (h : k < 10) : digitValue (Nat.digitChar k) = some k := by
  interval_cases k <;> rfl

theorem digitChar_ne_sign (k : Nat) (h : k < 10) :
    Nat.digitChar k ≠ '+' ∧ Nat.digitChar k ≠ '-' := by
  interval_cases k <;> decide

theorem length_padDigits (k n : Nat) : (padDigits k n).length = k := by
  induction k generalizing n with
  | zero => rfl
  | succ k ih => simp [padDigits, ih]

theorem parseDigitsFrom_append (acc : Nat) (xs ys : List Char) :
    parseDigitsFrom acc (xs ++ ys) = (parseDigitsFrom acc xs).bind fun a => parseDigitsFrom a ys := by
  induction xs generalizing acc with
  | nil => rfl
  | cons c cs ih =>
    simp only [List.cons_append, parseDigitsFrom]
    cases digitValue c with
    | none => rfl
    | some v => exact ih _

theorem parseDigitsFrom_padDigits (k acc n : Nat) :
    parseDigitsFrom acc (padDigits k n) = some (acc * 10 ^ k + n % 10 ^ k) := by
  induction k generalizing n with
  | zero => simp [padDigits, parseDigitsFrom, Nat.mod_one]
  | succ k ih =>
    rw [padDigits, parseDigitsFrom_append, ih]
    simp only [Option.some_bind, parseDigitsFrom, digitValue_digitChar _ (Nat.mod_lt n (by decide))]
    congr 1
    have h1 : n % 10 ^ (k + 1) = 10 * (n / 10 % 10 ^ k) + n % 10 := by
      rw [pow_succ, mul_comm, Nat.mod_mul]
      omega
    rw [h1, pow_succ]
    ring

theorem parseDigits_padDigits (k n : Nat) (h : n < 10 ^ k) :
    parseDigits (padDigits k n) = some n := by
  rw [parseDigits, parseDigitsFrom_padDigits, Nat.mod_eq_of_lt h]
  simp

theorem padDigits_ne_nil_head (k n : Nat) :
    ∃ c cs, padDigits (k + 1) n = c :: cs ∧ c ≠ '+' ∧ c ≠ '-' := by
  induction k generalizing n with
  | zero =>
    exact ⟨_, [], by simp [padDigits], digitChar_ne_sign _ (Nat.mod_lt n (by decide))⟩
  | succ k ih =>
    obtain ⟨c, cs, h, hc⟩ := ih (n / 10)
    exact ⟨c, cs ++ [Nat.digitChar (n % 10)], by rw [padDigits, h]; rfl, hc⟩

theorem parseYear_yearChars (y : Int) (rest : List Char)
    (h : -999999 ≤ y ∧ y ≤ 999999) :
    parseYear (yearChars y ++ rest) = some (y, rest) := by
  unfold yearChars
  split_ifs with h1 h2
  · obtain ⟨c, cs, hc, hp, hm⟩ := padDigits_ne_nil_head 3 y.toNat
    have hlen := length_padDigits 4 y.toNat
    have hpd : parseDigits (padDigits 4 y.toNat) = some y.toNat :=
      parseDigits_padDigits 4 _ (by omega)
    rw [hc] at hlen hpd ⊢
    have ht : List.take 4 (c :: cs ++ rest) = c :: cs := by
      rw [← hlen]; exact List.take_left' rfl
    have hd : List.drop 4 (c :: cs ++ rest) = rest := by
      rw [← hlen]; exact List.drop_left' rfl
    simp only [List.cons_append] at ht hd ⊢
    simp only [parseYear, hp, hm, if_false, ht, hd, hlen, if_true, hpd, Option.some_bind]
    simp
    omega
  · have hlen := length_padDigits 6 (-y).toNat
    have hpd : parseDigits (padDigits 6 (-y).toNat) = some (-y).toNat :=
      parseDigits_padDigits 6 _ (by omega)
    have ht : List.take 6 (padDigits 6 (-y).toNat ++ rest) = padDigits 6 (-y).toNat :=
      List.take_left' hlen
    have hd : List.drop 6 (padDigits 6 (-y).toNat ++ rest) = rest :=
      List.drop_left' hlen
    have hne : (-y).toNat ≠ 0 := by omega
    simp only [List.cons_append, parseYear, ht, hd, hlen, if_true, hpd, Option.some_bind, hne,
      if_false]
    simp
    omega
  · have hlen := length_padDigits 6 y.toNat
    have hpd : parseDigits (padDigits 6 y.toNat) = some y.toNat :=
      parseDigits_padDigits 6 _ (by omega)
    have ht : List.take 6 (padDigits 6 y.toNat ++ rest) = padDigits 6 y.toNat :=
      List.take_left' hlen
    have hd : List.drop 6 (padDigits 6 y.toNat ++ rest) = rest :=
      List.drop_left' hlen
    simp only [List.cons_append, parseYear, ht, hd, hlen, if_true, hpd, Option.some_bind]
    simp
    omega


theorem DayFromYear_succ (y : Int) : DayFromYear (y + 1) = DayFromYear y + DaysInYear y := by
  unfold DayFromYear DaysInYear
  split_ifs <;> omega

theorem YearFromDay_spec (d : Int) :
    DayFromYear (YearFromDay d) ≤ d ∧ d < DayFromYear (YearFromDay d + 1) := by
  unfold YearFromDay
  simp only
  have e : 400 * d / 146097 * 146097 ≤ 400 * d
      ∧ 400 * d < 400 * d / 146097 * 146097 + 146097 := by omega
  generalize 400 * d / 146097 = q at *
  split_ifs with h1 h2
  · rw [sub_add_cancel]
    refine ⟨?_, h1⟩
    unfold DayFromYear at *
    omega
  · refine ⟨h2, ?_⟩
    unfold DayFromYear at *
    omega
  · exact ⟨by omega, by omega⟩

theorem YearFromDay_bounds (d : Int) (h : -100000000 ≤ d ∧ d ≤ 100000000) :
    -271822 ≤ YearFromDay d ∧ YearFromDay d ≤ 275761 := by
  unfold YearFromDay
  simp only
  split_ifs <;> omega

theorem InLeapYear_eq (t : Int) :
    (InLeapYear t = 0 ∧ DaysInYear (YearFromTime t) = 365)
      ∨ (InLeapYear t = 1 ∧ DaysInYear (YearFromTime t) = 366) := by
  unfold InLeapYear leapFlag DaysInYear
  split_ifs <;> simp_all

theorem DayWithinYear_bounds (t : Int) :
    0 ≤ DayWithinYear t ∧ DayWithinYear t < 365 + InLeapYear t := by
  have h := YearFromDay_spec (Day t)
  rw [DayFromYear_succ] at h
  have hl := InLeapYear_eq t
  unfold DayWithinYear YearFromTime at *
  omega

theorem monthFromDayWithinYear_bounds (d leap : Int) :
    0 ≤ monthFromDayWithinYear d leap ∧ monthFromDayWithinYear d leap ≤ 11 := by
  unfold monthFromDayWithinYear
  omega

theorem dateWithinMonth (d leap : Int) (hd : 0 ≤ d ∧ d < 365 + leap) :
    1 ≤ d - daysBeforeMonth leap (monthFromDayWithinYear d leap) + 1
      ∧ d - daysBeforeMonth leap (monthFromDayWithinYear d leap) + 1
          ≤ (if monthFromDayWithinYear d leap + 1 = 2 then 28 + leap
             else if monthFromDayWithinYear d leap + 1 = 4
                ∨ monthFromDayWithinYear d leap + 1 = 6
                ∨ monthFromDayWithinYear d leap + 1 = 9
                ∨ monthFromDayWithinYear d leap + 1 = 11 then 30
             else 31) := by
  have hm : ∀ m : Int, m = monthFromDayWithinYear d leap →
      1 ≤ d - daysBeforeMonth leap m + 1
      ∧ d - daysBeforeMonth leap m + 1
          ≤ (if m + 1 = 2 then 28 + leap
             else if m + 1 = 4 ∨ m + 1 = 6 ∨ m + 1 = 9 ∨ m + 1 = 11 then 30
             else 31) := by
    intro m hm
    unfold monthFromDayWithinYear at hm
    unfold daysBeforeMonth
    omega
  exact hm _ rfl

theorem MonthFromTime_bounds (t : Int) : 0 ≤ MonthFromTime t ∧ MonthFromTime t ≤ 11 :=
  monthFromDayWithinYear_bounds _ _

theorem DateFromTime_bounds (t : Int) :
    1 ≤ DateFromTime t
      ∧ DateFromTime t ≤ DaysInMonth (YearFromTime t) (MonthFromTime t + 1) := by
  have hb := DayWithinYear_bounds t
  exact dateWithinMonth _ _ hb

theorem MakeDay_fromTime (t : Int) :
    MakeDay (YearFromTime t) (MonthFromTime t) (DateFromTime t) = Day t := by
  have hm := MonthFromTime_bounds t
  have h1 : MonthFromTime t / 12 = 0 := by omega
  have h2 : MonthFromTime t % 12 = MonthFromTime t := by omega
  unfold MakeDay
  rw [h1, h2, add_zero]
  unfold DateFromTime DayWithinYear InLeapYear
  omega

theorem timeFields (t : Int) :
    0 ≤ HourFromTime t ∧ HourFromTime t ≤ 23 ∧ 0 ≤ MinFromTime t ∧ MinFromTime t ≤ 59
      ∧ 0 ≤ SecFromTime t ∧ SecFromTime t ≤ 59 ∧ 0 ≤ msFromTime t ∧ msFromTime t ≤ 999
      ∧ MakeDate (Day t)
          (MakeTime (HourFromTime t) (MinFromTime t) (SecFromTime t) (msFromTime t)) = t := by
  unfold HourFromTime MinFromTime SecFromTime msFromTime MakeDate MakeTime Day
    msPerDay msPerHour msPerMinute msPerSecond
  omega


theorem padDigits_two (n : Nat) :
    padDigits 2 n = [Nat.digitChar (n / 10 % 10), Nat.digitChar (n % 10)] := by
  simp [padDigits]

theorem padDigits_three (n : Nat) :
    padDigits 3 n
      = [Nat.digitChar (n / 10 / 10 % 10), Nat.digitChar (n / 10 % 10), Nat.digitChar (n % 10)] := by
  simp [padDigits]

theorem parseFields_padded (y : Int) (mo d h mi s ms : Nat)
    (hmo : mo < 100) (hd : d < 100) (hh : h < 100) (hmi : mi < 100) (hs : s < 100)
    (hms : ms < 1000) :
    parseFields y (fieldChars mo d h mi s ms)
      = if 1 ≤ mo ∧ mo ≤ 12 ∧ 1 ≤ d ∧ (d : Int) ≤ DaysInMonth y mo
            ∧ h ≤ 24 ∧ mi ≤ 59 ∧ s ≤ 59 ∧ (h = 24 → mi = 0 ∧ s = 0 ∧ ms = 0) then
          TimeClip (MakeDate (MakeDay y ((mo : Int) - 1) d) (MakeTime h mi s ms))
        else none := by
  have e1 := parseDigits_padDigits 2 mo hmo
  have e2 := parseDigits_padDigits 2 d hd
  have e3 := parseDigits_padDigits 2 h hh
  have e4 := parseDigits_padDigits 2 mi hmi
  have e5 := parseDigits_padDigits 2 s hs
  have e6 := parseDigits_padDigits 3 ms hms
  rw [padDigits_two] at e1 e2 e3 e4 e5
  rw [padDigits_three] at e6
  simp only [fieldChars, padDigits_two, padDigits_three, List.cons_append, List.nil_append, parseFields,
    and_self, if_true, e1, e2, e3, e4, e5, e6, Option.some_bind]

theorem parseChars_isoChars (t : Int)
    (h : -8640000000000000 ≤ t ∧ t ≤ 8640000000000000) :
    parseChars (isoChars t) = some t := by
  have hy := YearFromDay_bounds (Day t) (by unfold Day msPerDay; omega)
  have hm := MonthFromTime_bounds t
  have hd := DateFromTime_bounds t
  have hdm : DaysInMonth (YearFromTime t) (MonthFromTime t + 1) ≤ 31 := by
    unfold DaysInMonth leapFlag
    split_ifs <;> omega
  obtain ⟨h0, h1, m0, m1, s0, s1, f0, f1, hmk⟩ := timeFields t
  have c1 : (((MonthFromTime t + 1).toNat : Nat) : Int) = MonthFromTime t + 1 :=
    Int.toNat_of_nonneg (by omega)
  have c2 : (((DateFromTime t).toNat : Nat) : Int) = DateFromTime t :=
    Int.toNat_of_nonneg (by omega)
  have c3 : (((HourFromTime t).toNat : Nat) : Int) = HourFromTime t := Int.toNat_of_nonneg h0
  have c4 : (((MinFromTime t).toNat : Nat) : Int) = MinFromTime t := Int.toNat_of_nonneg m0
  have c5 : (((SecFromTime t).toNat : Nat) : Int) = SecFromTime t := Int.toNat_of_nonneg s0
  have c6 : (((msFromTime t).toNat : Nat) : Int) = msFromTime t := Int.toNat_of_nonneg f0
  unfold parseChars isoChars
  rw [parseYear_yearChars _ _ (by unfold YearFromTime; omega)]
  simp only [Option.some_bind]
  rw [parseFields_padded _ _ _ _ _ _ _ (by omega) (by omega) (by omega) (by omega) (by omega)
    (by omega)]
  rw [if_pos (by rw [c2, c1]; omega)]
  rw [c1, c2, c3, c4, c5, c6, add_sub_cancel_right, MakeDay_fromTime, hmk]
  exact if_pos h

theorem getLast_isoChars (t : Int) : (isoChars t).getLast? = some 'Z' := by
  have h : ∀ mo d h mi s ms : Nat, ∃ front, fieldChars mo d h mi s ms = front ++ ['Z'] :=
    fun mo d h mi s ms =>
      ⟨'-' :: (padDigits 2 mo ++ ('-' :: (padDigits 2 d ++ ('T' :: (padDigits 2 h
        ++ (':' :: (padDigits 2 mi ++ (':' :: (padDigits 2 s
        ++ ('.' :: padDigits 3 ms)))))))))), by simp [fieldChars]⟩
  obtain ⟨front, hf⟩ := h (MonthFromTime t + 1).toNat (DateFromTime t).toNat
    (HourFromTime t).toNat (MinFromTime t).toNat (SecFromTime t).toNat (msFromTime t).toNat
  rw [isoChars, hf, ← List.append_assoc]
  exact List.getLast?_concat _

theorem dateParse_toISOString (t : TimeValue) : dateParse (toISOString t) = some t.ms :=
  parseChars_isoChars t.ms t.inRange

/-! ## The rendering on known instants -/

theorem toISOString_epoch :
    toISOString ⟨0, by decide⟩ = "1970-01-01T00:00:00.000Z" := by decide

theorem toISOString_sampleTime :
    toISOString sampleTime = "2025-11-06T00:00:00.123Z" := by decide

theorem toISOString_leap_day :
    toISOString ⟨951782400000, by decide⟩ = "2000-02-29T00:00:00.000Z" := by decide

theorem toISOString_before_epoch :
    toISOString ⟨-1, by decide⟩ = "1969-12-31T23:59:59.999Z" := by decide

theorem toISOString_latest :
    toISOString ⟨8640000000000000, by decide⟩ = "+275760-09-13T00:00:00.000Z" := by decide

theorem toISOString_earliest :
    toISOString ⟨-8640000000000000, by decide⟩ = "-271821-04-20T00:00:00.000Z" := by decide

theorem dateParse_rejects_invalid :
    dateParse "2023-02-29T00:00:00.000Z" = none
      ∧ dateParse "2025-13-01T00:00:00.000Z" = none
      ∧ dateParse "2025-11-06T00:00:00.123" = none
      ∧ dateParse "+275760-09-13T00:00:00.001Z" = none := by decide

/-! ## Substrings of the greeting -/

theorem includes_hello_default :
    includes "Hello, World! This Azure Function was deployed using Jenkins CI/CD Pipeline."
      "Hello" :=
  ⟨[], ", World! This Azure Function was deployed using Jenkins CI/CD Pipeline.".data, rfl⟩

theorem includes_hello_greeting (n suffix : String) :
    includes ("Hello, " ++ n ++ suffix) "Hello" :=
  ⟨[], ", ".data ++ n.data ++ suffix.data, by simp [String.data_append]⟩

theorem includes_name_greeting (greet n suffix : String) :
    includes (greet ++ n ++ suffix) n :=
  ⟨greet.data, suffix.data, by simp [String.data_append]⟩

/-! ## The claims -/

/-- C1: when the query has no `name` entry, or its `name` entry is the empty
string, both handlers return the message
"Hello, World! This Azure Function was deployed using Jenkins CI/CD Pipeline.",
whatever the method, URL, headers, context, process and clock are. -/
theorem default_message_without_name (request : HttpRequest) (context : InvocationContext)
    (process : Process) (now : TimeValue)
    (h : request.query.get "name" = none ∨ request.query.get "name" = some "") :
    (SrcFunctions.handler request context process now).1.field "message"
        = some (.string
            "Hello, World! This Azure Function was deployed using Jenkins CI/CD Pipeline.")
      ∧ (HttpTriggerIndex.handler request context process now).1.field "message"
        = some (.string
            "Hello, World! This Azure Function was deployed using Jenkins CI/CD Pipeline.") := by
  rcases h with h | h <;>
    simp [SrcFunctions.handler, HttpTriggerIndex.handler, HttpResponse.field, List.lookup, h,
      truthy]

/-- Witness of C1: the request `GET /api/hello`, whose query is empty. -/
theorem default_message_without_name_witness :
    (getRequest.query.get "name" = none ∨ getRequest.query.get "name" = some "")
      ∧ (SrcFunctions.handler getRequest mockContext bareProcess sampleTime).1.field "message"
        = some (.string
            "Hello, World! This Azure Function was deployed using Jenkins CI/CD Pipeline.")
      ∧ (HttpTriggerIndex.handler getRequest mockContext bareProcess sampleTime).1.field "message"
        = some (.string
            "Hello, World! This Azure Function was deployed using Jenkins CI/CD Pipeline.") :=
  ⟨Or.inl rfl,
    default_message_without_name getRequest mockContext bareProcess sampleTime (Or.inl rfl)⟩

/-- C2: when the `name` query parameter is a non-empty string `X`, both handlers
return the message "Hello, " ++ X ++ "! This Azure Function was deployed using
Jenkins CI/CD Pipeline.", with `X` copied as it is, whatever `X` contains and
however long it is. -/
theorem personalized_message_verbatim (request : HttpRequest) (context : InvocationContext)
    (process : Process) (now : TimeValue) (X : String)
    (hname : request.query.get "name" = some X) (hX : X ≠ "") :
    (SrcFunctions.handler request context process now).1.field "message"
        = some (.string ("Hello, " ++ X
            ++ "! This Azure Function was deployed using Jenkins CI/CD Pipeline."))
      ∧ (HttpTriggerIndex.handler request context process now).1.field "message"
        = some (.string ("Hello, " ++ X
            ++ "! This Azure Function was deployed using Jenkins CI/CD Pipeline.")) := by
  simp [SrcFunctions.handler, HttpTriggerIndex.handler, HttpResponse.field, List.lookup, hname,
    truthy, hX]

/-- Witness of C2: the request `GET /api/hello?name=Jenkins`. -/
theorem personalized_message_verbatim_witness :
    jenkinsRequest.query.get "name" = some "Jenkins" ∧ "Jenkins" ≠ ""
      ∧ (SrcFunctions.handler jenkinsRequest mockContext bareProcess sampleTime).1.field "message"
        = some (.string ("Hello, " ++ "Jenkins"
            ++ "! This Azure Function was deployed using Jenkins CI/CD Pipeline."))
      ∧ (HttpTriggerIndex.handler jenkinsRequest mockContext bareProcess sampleTime).1.field
          "message"
        = some (.string ("Hello, " ++ "Jenkins"
            ++ "! This Azure Function was deployed using Jenkins CI/CD Pipeline.")) :=
  ⟨rfl, by decide,
    personalized_message_verbatim jenkinsRequest mockContext bareProcess sampleTime "Jenkins"
      rfl (by decide)⟩

/-- C3: for every request, context, process and clock reading both handlers
return a response (they are total functions: no input makes them fail) whose
status is 200 and whose headers map `Content-Type` to "application/json". -/
theorem status_200_and_json_content_type (request : HttpRequest) (context : InvocationContext)
    (process : Process) (now : TimeValue) :
    (SrcFunctions.handler request context process now).1.status = 200
      ∧ (SrcFunctions.handler request context process now).1.header "Content-Type"
          = some "application/json"
      ∧ (HttpTriggerIndex.handler request context process now).1.status = 200
      ∧ (HttpTriggerIndex.handler request context process now).1.header "Content-Type"
          = some "application/json" :=
  ⟨rfl, rfl, rfl, rfl⟩

/-- C4, as stated, fails: on the request `GET /api/hello` neither handler returns
a body whose fields are `message`, `timestamp`, `environment` and
`runtimeVersion`.  The fourth field of `src/functions/httpTrigger.js` is called
`nodeVersion`, and `httpTrigger/index.js` returns seven fields. -/
theorem body_fields_counterexample :
    ¬ ((SrcFunctions.handler getRequest mockContext bareProcess sampleTime).1.bodyKeys.Perm
          ["message", "timestamp", "environment", "runtimeVersion"])
      ∧ ¬ ((HttpTriggerIndex.handler getRequest mockContext bareProcess sampleTime).1.bodyKeys.Perm
          ["message", "timestamp", "environment", "runtimeVersion"])
      ∧ (SrcFunctions.handler getRequest mockContext bareProcess sampleTime).1.field
          "runtimeVersion" = none
      ∧ (HttpTriggerIndex.handler getRequest mockContext bareProcess sampleTime).1.bodyKeys.length
          = 7 := by
  refine ⟨?_, ?_, rfl, rfl⟩
  · intro h
    have hmem := h.symm.subset (show "runtimeVersion" ∈ _ from by simp)
    revert hmem
    decide
  · intro h
    have hlen := h.length_eq
    revert hlen
    decide

/-- C4, amended: for every request the body returned by
`src/functions/httpTrigger.js` has exactly the four fields `message`,
`timestamp`, `environment` and `nodeVersion`, the body returned by
`httpTrigger/index.js` has exactly those four followed by `functionRuntime`,
`programmingModel` and `deploymentMethod`, and every field of both bodies is a
string. -/
theorem body_fields_of_each_handler (request : HttpRequest) (context : InvocationContext)
    (process : Process) (now : TimeValue) :
    (SrcFunctions.handler request context process now).1.bodyKeys
        = ["message", "timestamp", "environment", "nodeVersion"]
      ∧ ((SrcFunctions.handler request context process now).1.jsonBody.all
          fun kv => kv.2.isString) = true
      ∧ (HttpTriggerIndex.handler request context process now).1.bodyKeys
        = ["message", "timestamp", "environment", "nodeVersion", "functionRuntime",
            "programmingModel", "deploymentMethod"]
      ∧ ((HttpTriggerIndex.handler request context process now).1.jsonBody.all
          fun kv => kv.2.isString) = true :=
  ⟨rfl, rfl, rfl, rfl⟩

/-- C5, as stated, fails: with `AZURE_FUNCTIONS_ENVIRONMENT` not set, the handler
of `httpTrigger/index.js` reports the environment "production", not "local". -/
theorem environment_default_counterexample :
    bareProcess.getEnv "AZURE_FUNCTIONS_ENVIRONMENT" = none
      ∧ (HttpTriggerIndex.handler getRequest mockContext bareProcess sampleTime).1.field
          "environment" = some (.string "production")
      ∧ (HttpTriggerIndex.handler getRequest mockContext bareProcess sampleTime).1.field
          "environment" ≠ some (.string "local") := by
  refine ⟨rfl, rfl, ?_⟩
  decide

/-- C5, amended: when `AZURE_FUNCTIONS_ENVIRONMENT` is not set, the `environment`
field is the fixed default of the handler that runs: "local" for
`src/functions/httpTrigger.js` and "production" for `httpTrigger/index.js`. -/
theorem environment_default_of_each_handler (request : HttpRequest)
    (context : InvocationContext) (process : Process) (now : TimeValue)
    (h : process.getEnv "AZURE_FUNCTIONS_ENVIRONMENT" = none) :
    (SrcFunctions.handler request context process now).1.field "environment"
        = some (.string "local")
      ∧ (HttpTriggerIndex.handler request context process now).1.field "environment"
        = some (.string "production") := by
  simp [SrcFunctions.handler, HttpTriggerIndex.handler, HttpResponse.field, List.lookup, h,
    orElse]

/-- Witness of the amended C5: a process whose environment is empty. -/
theorem environment_default_of_each_handler_witness :
    bareProcess.getEnv "AZURE_FUNCTIONS_ENVIRONMENT" = none
      ∧ (SrcFunctions.handler jenkinsRequest mockContext bareProcess sampleTime).1.field
          "environment" = some (.string "local")
      ∧ (HttpTriggerIndex.handler jenkinsRequest mockContext bareProcess sampleTime).1.field
          "environment" = some (.string "production") :=
  ⟨rfl,
    environment_default_of_each_handler jenkinsRequest mockContext bareProcess sampleTime rfl⟩

/-- C6: two requests with the same query parameters, whatever their methods,
URLs and headers are, get the same result from a handler run with the same
context, process and clock reading: the same status, headers and body (and the
same log lines). -/
theorem response_independent_of_method (r1 r2 : HttpRequest) (context : InvocationContext)
    (process : Process) (now : TimeValue) (h : r1.query = r2.query) :
    SrcFunctions.handler r1 context process now = SrcFunctions.handler r2 context process now
      ∧ HttpTriggerIndex.handler r1 context process now
          = HttpTriggerIndex.handler r2 context process now := by
  simp only [SrcFunctions.handler, HttpTriggerIndex.handler, h, and_self]

/-- Witness of C6: `GET /api/hello` against `POST /api/hello`. -/
theorem response_independent_of_method_witness :
    getRequest.query = postRequest.query ∧ getRequest.method ≠ postRequest.method
      ∧ SrcFunctions.handler getRequest mockContext bareProcess sampleTime
          = SrcFunctions.handler postRequest mockContext bareProcess sampleTime
      ∧ HttpTriggerIndex.handler getRequest mockContext bareProcess sampleTime
          = HttpTriggerIndex.handler postRequest mockContext bareProcess sampleTime :=
  ⟨rfl, by decide,
    response_independent_of_method getRequest postRequest mockContext bareProcess sampleTime rfl⟩

/-- C7: for every request the message of each handler contains the substring
"Hello", and when the `name` parameter is present and non-empty the message also
contains the value of `name` as a contiguous substring. -/
theorem message_includes_hello_and_name (request : HttpRequest) (context : InvocationContext)
    (process : Process) (now : TimeValue) :
    (∃ msg, (SrcFunctions.handler request context process now).1.field "message"
          = some (.string msg)
        ∧ includes msg "Hello"
        ∧ ∀ X, request.query.get "name" = some X → X ≠ "" → includes msg X)
      ∧ (∃ msg, (HttpTriggerIndex.handler request context process now).1.field "message"
          = some (.string msg)
        ∧ includes msg "Hello"
        ∧ ∀ X, request.query.get "name" = some X → X ≠ "" → includes msg X) := by
  cases hq : request.query.get "name" with
  | none =>
    exact ⟨⟨_, by simp [SrcFunctions.handler, HttpResponse.field, List.lookup, hq],
        includes_hello_default, fun X hX => by simp at hX⟩,
      ⟨_, by simp [HttpTriggerIndex.handler, HttpResponse.field, List.lookup, hq],
        includes_hello_default, fun X hX => by simp at hX⟩⟩
  | some n =>
    by_cases hn : n = ""
    · subst hn
      exact ⟨⟨_, by simp [SrcFunctions.handler, HttpResponse.field, List.lookup, hq, truthy],
          includes_hello_default, fun X hX hne => by simp_all⟩,
        ⟨_, by simp [HttpTriggerIndex.handler, HttpResponse.field, List.lookup, hq, truthy],
          includes_hello_default, fun X hX hne => by simp_all⟩⟩
    · refine ⟨⟨"Hello, " ++ n
            ++ "! This Azure Function was deployed using Jenkins CI/CD Pipeline.",
          by simp [SrcFunctions.handler, HttpResponse.field, List.lookup, hq, truthy, hn],
          includes_hello_greeting _ _, fun X hX _ => ?_⟩,
        ⟨"Hello, " ++ n
            ++ "! This Azure Function was deployed using Jenkins CI/CD Pipeline.",
          by simp [HttpTriggerIndex.handler, HttpResponse.field, List.lookup, hq, truthy, hn],
          includes_hello_greeting _ _, fun X hX _ => ?_⟩⟩
      · cases hX
        exact includes_name_greeting _ _ _
      · cases hX
        exact includes_name_greeting _ _ _

/-- Witness of C7: on `GET /api/hello?name=Jenkins` the message of
`src/functions/httpTrigger.js` contains "Hello" and "Jenkins". -/
theorem message_includes_hello_and_name_witness :
    ∃ msg, (SrcFunctions.handler jenkinsRequest mockContext bareProcess sampleTime).1.field
          "message" = some (.string msg)
      ∧ includes msg "Hello" ∧ includes msg "Jenkins" :=
  match (message_includes_hello_and_name jenkinsRequest mockContext bareProcess sampleTime).1 with
  | ⟨msg, hmsg, hello, hname⟩ => ⟨msg, hmsg, hello, hname "Jenkins" rfl (by decide)⟩

/-- C8: for every request and every clock reading `now`, the `timestamp` field of
each handler is `toISOString` of `now` (the UTC rendering with a trailing Z), and
parsing that string as an ISO-8601 date-time gives back the instant `now`. -/
theorem timestamp_is_iso_of_clock (request : HttpRequest) (context : InvocationContext)
    (process : Process) (now : TimeValue) :
    (SrcFunctions.handler request context process now).1.field "timestamp"
        = some (.string (toISOString now))
      ∧ (HttpTriggerIndex.handler request context process now).1.field "timestamp"
        = some (.string (toISOString now))
      ∧ dateParse (toISOString now) = some now.ms
      ∧ (toISOString now).data.getLast? = some 'Z' := by
  exact ⟨rfl, rfl, dateParse_toISOString now, getLast_isoChars now.ms⟩

/-- C9: when `AZURE_FUNCTIONS_ENVIRONMENT` is set to `v`, the `environment` field
is `v` itself if `v` is not empty; if `v` is the empty string the field is the
default of the handler ("local", respectively "production"), which is also what
the handler reports for any process in which the variable is not set. -/
theorem environment_from_variable (request : HttpRequest) (context : InvocationContext)
    (process : Process) (now : TimeValue) (v : String)
    (hv : process.getEnv "AZURE_FUNCTIONS_ENVIRONMENT" = some v) :
    (v ≠ "" →
        (SrcFunctions.handler request context process now).1.field "environment"
            = some (.string v)
          ∧ (HttpTriggerIndex.handler request context process now).1.field "environment"
            = some (.string v))
      ∧ (v = "" →
        (SrcFunctions.handler request context process now).1.field "environment"
            = some (.string "local")
          ∧ (HttpTriggerIndex.handler request context process now).1.field "environment"
            = some (.string "production")
          ∧ ∀ unset : Process, unset.getEnv "AZURE_FUNCTIONS_ENVIRONMENT" = none →
              (SrcFunctions.handler request context process now).1.field "environment"
                  = (SrcFunctions.handler request context unset now).1.field "environment"
                ∧ (HttpTriggerIndex.handler request context process now).1.field "environment"
                  = (HttpTriggerIndex.handler request context unset now).1.field
                      "environment") := by
  constructor
  · intro hne
    simp [SrcFunctions.handler, HttpTriggerIndex.handler, HttpResponse.field, List.lookup, hv,
      orElse, hne]
  · intro he
    subst he
    refine ⟨?_, ?_, fun unset hu => ?_⟩
    · simp [SrcFunctions.handler, HttpResponse.field, List.lookup, hv, orElse]
    · simp [HttpTriggerIndex.handler, HttpResponse.field, List.lookup, hv, orElse]
    · simp [SrcFunctions.handler, HttpTriggerIndex.handler, HttpResponse.field, List.lookup, hv,
        hu, orElse]

/-- Witness of C9: the variable set to "Development", and set to the empty
string. -/
theorem environment_from_variable_witness :
    (devProcess.getEnv "AZURE_FUNCTIONS_ENVIRONMENT" = some "Development"
        ∧ (SrcFunctions.handler getRequest mockContext devProcess sampleTime).1.field
            "environment" = some (.string "Development")
        ∧ (HttpTriggerIndex.handler getRequest mockContext devProcess sampleTime).1.field
            "environment" = some (.string "Development"))
      ∧ (emptyEnvProcess.getEnv "AZURE_FUNCTIONS_ENVIRONMENT" = some ""
        ∧ (SrcFunctions.handler getRequest mockContext emptyEnvProcess sampleTime).1.field
            "environment" = some (.string "local")
        ∧ (HttpTriggerIndex.handler getRequest mockContext emptyEnvProcess sampleTime).1.field
            "environment" = some (.string "production")) :=
  ⟨⟨rfl, (environment_from_variable getRequest mockContext devProcess sampleTime "Development"
        rfl).1 (by decide)⟩,
    ⟨rfl,
      ((environment_from_variable getRequest mockContext emptyEnvProcess sampleTime "" rfl).2
        rfl).1,
      ((environment_from_variable getRequest mockContext emptyEnvProcess sampleTime "" rfl).2
        rfl).2.1⟩⟩

/-- C10: for every request, context, process and clock reading the two handlers
return the same status, the same headers, and the same `message`, `timestamp` and
`nodeVersion` body fields. -/
theorem handlers_agree_on_shared_part (request : HttpRequest) (context : InvocationContext)
    (process : Process) (now : TimeValue) :
    (SrcFunctions.handler request context process now).1.status
        = (HttpTriggerIndex.handler request context process now).1.status
      ∧ (SrcFunctions.handler request context process now).1.headers
        = (HttpTriggerIndex.handler request context process now).1.headers
      ∧ (SrcFunctions.handler request context process now).1.field "message"
        = (HttpTriggerIndex.handler request context process now).1.field "message"
      ∧ (SrcFunctions.handler request context process now).1.field "timestamp"
        = (HttpTriggerIndex.handler request context process now).1.field "timestamp"
      ∧ (SrcFunctions.handler request context process now).1.field "nodeVersion"
        = (HttpTriggerIndex.handler request context process now).1.field "nodeVersion" :=
  ⟨rfl, rfl, rfl, rfl, rfl⟩

end GreetingHandler
